import Mathlib

/-!
Verification of the marshaler-type registry described by `src/coreclr/vm/mtypes.h`.

The source file is the single authoritative table binding each `MARSHAL_TYPE_*`
identifier to its marshaler class, with preprocessor guards (`FEATURE_COMINTEROP`,
`TARGET_WINDOWS`) conditionally excluding some rows from a build.  The table is
transcribed below entry by entry, in declaration order, with each row's guard.
The registry / dispatcher shell that consumes the table is not part of the given
source; those parts are modelled from the specification and are marked as such.
-/

namespace MTypes

/-- The build-time feature flags that occur in the preprocessor guards of
`mtypes.h`: `FEATURE_COMINTEROP` and `TARGET_WINDOWS`. -/
inductive FeatureFlag where
  | FEATURE_COMINTEROP
  | TARGET_WINDOWS
deriving DecidableEq

/-- Modelled from the spec: a build configuration is a fixed set of named
build-time boolean flags, resolved once before registry construction
(spec 3, FeatureFlag).  The configuration component itself is outside the
given source. -/
structure Config where
  featureComInterop : Bool
  targetWindows : Bool
deriving DecidableEq

/-- Whether a configuration enables a given feature flag. -/
def Config.enabled (c : Config) : FeatureFlag → Bool
  | .FEATURE_COMINTEROP => c.featureComInterop
  | .TARGET_WINDOWS => c.targetWindows

/-- The `MARSHAL_TYPE_*` identifiers, one constructor per `DEFINE_MARSHALER_TYPE`
row of `mtypes.h`, in declaration order. -/
inductive MarshalType where
  | MARSHAL_TYPE_GENERIC_1
  | MARSHAL_TYPE_GENERIC_U1
  | MARSHAL_TYPE_GENERIC_2
  | MARSHAL_TYPE_GENERIC_U2
  | MARSHAL_TYPE_GENERIC_4
  | MARSHAL_TYPE_GENERIC_U4
  | MARSHAL_TYPE_GENERIC_8
  | MARSHAL_TYPE_WINBOOL
  | MARSHAL_TYPE_CBOOL
  | MARSHAL_TYPE_VTBOOL
  | MARSHAL_TYPE_ANSICHAR
  | MARSHAL_TYPE_FLOAT
  | MARSHAL_TYPE_DOUBLE
  | MARSHAL_TYPE_CURRENCY
  | MARSHAL_TYPE_DECIMAL
  | MARSHAL_TYPE_DECIMAL_PTR
  | MARSHAL_TYPE_GUID
  | MARSHAL_TYPE_GUID_PTR
  | MARSHAL_TYPE_DATE
  | MARSHAL_TYPE_LPWSTR
  | MARSHAL_TYPE_LPSTR
  | MARSHAL_TYPE_LPUTF8STR
  | MARSHAL_TYPE_BSTR
  | MARSHAL_TYPE_ANSIBSTR
  | MARSHAL_TYPE_LPWSTR_BUFFER
  | MARSHAL_TYPE_LPSTR_BUFFER
  | MARSHAL_TYPE_UTF8_BUFFER
  | MARSHAL_TYPE_INTERFACE
  | MARSHAL_TYPE_SAFEARRAY
  | MARSHAL_TYPE_NATIVEARRAY
  | MARSHAL_TYPE_ASANYA
  | MARSHAL_TYPE_ASANYW
  | MARSHAL_TYPE_DELEGATE
  | MARSHAL_TYPE_BLITTABLEPTR
  | MARSHAL_TYPE_VBBYVALSTR
  | MARSHAL_TYPE_VBBYVALSTRW
  | MARSHAL_TYPE_LAYOUTCLASSPTR
  | MARSHAL_TYPE_ARRAYWITHOFFSET
  | MARSHAL_TYPE_BLITTABLEVALUECLASS
  | MARSHAL_TYPE_VALUECLASS
  | MARSHAL_TYPE_REFERENCECUSTOMMARSHALER
  | MARSHAL_TYPE_ARGITERATOR
  | MARSHAL_TYPE_BLITTABLEVALUECLASSWITHCOPYCTOR
  | MARSHAL_TYPE_OBJECT
  | MARSHAL_TYPE_HANDLEREF
  | MARSHAL_TYPE_SAFEHANDLE
  | MARSHAL_TYPE_CRITICALHANDLE
  | MARSHAL_TYPE_OLECOLOR
  | MARSHAL_TYPE_RUNTIMETYPEHANDLE
  | MARSHAL_TYPE_RUNTIMEMETHODHANDLE
  | MARSHAL_TYPE_RUNTIMEFIELDHANDLE
  | MARSHAL_TYPE_FIXED_ARRAY
  | MARSHAL_TYPE_FIXED_WSTR
  | MARSHAL_TYPE_FIXED_CSTR
  | MARSHAL_TYPE_BLITTABLE_LAYOUTCLASS
  | MARSHAL_TYPE_LAYOUTCLASS
  | MARSHAL_TYPE_POINTER
deriving DecidableEq

/-- The marshaler class names bound by `mtypes.h`, one constructor per row. -/
inductive MarshalerClass where
  | CopyMarshaler1
  | CopyMarshalerU1
  | CopyMarshaler2
  | CopyMarshalerU2
  | CopyMarshaler4
  | CopyMarshalerU4
  | CopyMarshaler8
  | WinBoolMarshaler
  | CBoolMarshaler
  | VtBoolMarshaler
  | AnsiCharMarshaler
  | FloatMarshaler
  | DoubleMarshaler
  | CurrencyMarshaler
  | DecimalMarshaler
  | DecimalPtrMarshaler
  | GuidMarshaler
  | GuidPtrMarshaler
  | DateMarshaler
  | WSTRMarshaler
  | CSTRMarshaler
  | CUTF8Marshaler
  | BSTRMarshaler
  | AnsiBSTRMarshaler
  | WSTRBufferMarshaler
  | CSTRBufferMarshaler
  | UTF8BufferMarshaler
  | InterfaceMarshaler
  | SafeArrayMarshaler
  | NativeArrayMarshaler
  | AsAnyAMarshaler
  | AsAnyWMarshaler
  | DelegateMarshaler
  | BlittablePtrMarshaler
  | VBByValStrMarshaler
  | VBByValStrWMarshaler
  | LayoutClassPtrMarshaler
  | ArrayWithOffsetMarshaler
  | BlittableValueClassMarshaler
  | ValueClassMarshaler
  | ReferenceCustomMarshaler
  | ArgIteratorMarshaler
  | BlittableValueClassWithCopyCtorMarshaler
  | ObjectMarshaler
  | HandleRefMarshaler
  | SafeHandleMarshaler
  | CriticalHandleMarshaler
  | OleColorMarshaler
  | RuntimeTypeHandleMarshaler
  | RuntimeMethodHandleMarshaler
  | RuntimeFieldHandleMarshaler
  | FixedArrayMarshaler
  | FixedWSTRMarshaler
  | FixedCSTRMarshaler
  | BlittableLayoutClassMarshaler
  | LayoutClassMarshaler
  | PointerMarshaler
deriving DecidableEq

/-- One `DEFINE_MARSHALER_TYPE` row: the tag, its bound marshaler class, and the
feature flags of the preprocessor guards enclosing the row (at most one in the
source; the list form matches the spec's "zero-or-more FeatureFlags"). -/
structure TagEntry where
  tag : MarshalType
  converterBinding : MarshalerClass
  requiredFeatures : List FeatureFlag
deriving DecidableEq

/-- The whole table of `mtypes.h`, row by row in declaration order.  Rows inside
an `#ifdef FEATURE_COMINTEROP` or `#if defined(TARGET_WINDOWS)` region carry the
corresponding flag; all other rows carry none. -/
def tagSpace : List TagEntry := [
  ⟨.MARSHAL_TYPE_GENERIC_1, .CopyMarshaler1, []⟩,
  ⟨.MARSHAL_TYPE_GENERIC_U1, .CopyMarshalerU1, []⟩,
  ⟨.MARSHAL_TYPE_GENERIC_2, .CopyMarshaler2, []⟩,
  ⟨.MARSHAL_TYPE_GENERIC_U2, .CopyMarshalerU2, []⟩,
  ⟨.MARSHAL_TYPE_GENERIC_4, .CopyMarshaler4, []⟩,
  ⟨.MARSHAL_TYPE_GENERIC_U4, .CopyMarshalerU4, []⟩,
  ⟨.MARSHAL_TYPE_GENERIC_8, .CopyMarshaler8, []⟩,
  ⟨.MARSHAL_TYPE_WINBOOL, .WinBoolMarshaler, []⟩,
  ⟨.MARSHAL_TYPE_CBOOL, .CBoolMarshaler, []⟩,
  ⟨.MARSHAL_TYPE_VTBOOL, .VtBoolMarshaler, [.FEATURE_COMINTEROP]⟩,
  ⟨.MARSHAL_TYPE_ANSICHAR, .AnsiCharMarshaler, []⟩,
  ⟨.MARSHAL_TYPE_FLOAT, .FloatMarshaler, []⟩,
  ⟨.MARSHAL_TYPE_DOUBLE, .DoubleMarshaler, []⟩,
  ⟨.MARSHAL_TYPE_CURRENCY, .CurrencyMarshaler, []⟩,
  ⟨.MARSHAL_TYPE_DECIMAL, .DecimalMarshaler, []⟩,
  ⟨.MARSHAL_TYPE_DECIMAL_PTR, .DecimalPtrMarshaler, []⟩,
  ⟨.MARSHAL_TYPE_GUID, .GuidMarshaler, []⟩,
  ⟨.MARSHAL_TYPE_GUID_PTR, .GuidPtrMarshaler, []⟩,
  ⟨.MARSHAL_TYPE_DATE, .DateMarshaler, []⟩,
  ⟨.MARSHAL_TYPE_LPWSTR, .WSTRMarshaler, []⟩,
  ⟨.MARSHAL_TYPE_LPSTR, .CSTRMarshaler, []⟩,
  ⟨.MARSHAL_TYPE_LPUTF8STR, .CUTF8Marshaler, []⟩,
  ⟨.MARSHAL_TYPE_BSTR, .BSTRMarshaler, []⟩,
  ⟨.MARSHAL_TYPE_ANSIBSTR, .AnsiBSTRMarshaler, []⟩,
  ⟨.MARSHAL_TYPE_LPWSTR_BUFFER, .WSTRBufferMarshaler, []⟩,
  ⟨.MARSHAL_TYPE_LPSTR_BUFFER, .CSTRBufferMarshaler, []⟩,
  ⟨.MARSHAL_TYPE_UTF8_BUFFER, .UTF8BufferMarshaler, []⟩,
  ⟨.MARSHAL_TYPE_INTERFACE, .InterfaceMarshaler, [.FEATURE_COMINTEROP]⟩,
  ⟨.MARSHAL_TYPE_SAFEARRAY, .SafeArrayMarshaler, [.FEATURE_COMINTEROP]⟩,
  ⟨.MARSHAL_TYPE_NATIVEARRAY, .NativeArrayMarshaler, []⟩,
  ⟨.MARSHAL_TYPE_ASANYA, .AsAnyAMarshaler, []⟩,
  ⟨.MARSHAL_TYPE_ASANYW, .AsAnyWMarshaler, []⟩,
  ⟨.MARSHAL_TYPE_DELEGATE, .DelegateMarshaler, []⟩,
  ⟨.MARSHAL_TYPE_BLITTABLEPTR, .BlittablePtrMarshaler, []⟩,
  ⟨.MARSHAL_TYPE_VBBYVALSTR, .VBByValStrMarshaler, [.FEATURE_COMINTEROP]⟩,
  ⟨.MARSHAL_TYPE_VBBYVALSTRW, .VBByValStrWMarshaler, [.FEATURE_COMINTEROP]⟩,
  ⟨.MARSHAL_TYPE_LAYOUTCLASSPTR, .LayoutClassPtrMarshaler, []⟩,
  ⟨.MARSHAL_TYPE_ARRAYWITHOFFSET, .ArrayWithOffsetMarshaler, []⟩,
  ⟨.MARSHAL_TYPE_BLITTABLEVALUECLASS, .BlittableValueClassMarshaler, []⟩,
  ⟨.MARSHAL_TYPE_VALUECLASS, .ValueClassMarshaler, []⟩,
  ⟨.MARSHAL_TYPE_REFERENCECUSTOMMARSHALER, .ReferenceCustomMarshaler, []⟩,
  ⟨.MARSHAL_TYPE_ARGITERATOR, .ArgIteratorMarshaler, []⟩,
  ⟨.MARSHAL_TYPE_BLITTABLEVALUECLASSWITHCOPYCTOR,
    .BlittableValueClassWithCopyCtorMarshaler, [.TARGET_WINDOWS]⟩,
  ⟨.MARSHAL_TYPE_OBJECT, .ObjectMarshaler, [.FEATURE_COMINTEROP]⟩,
  ⟨.MARSHAL_TYPE_HANDLEREF, .HandleRefMarshaler, []⟩,
  ⟨.MARSHAL_TYPE_SAFEHANDLE, .SafeHandleMarshaler, []⟩,
  ⟨.MARSHAL_TYPE_CRITICALHANDLE, .CriticalHandleMarshaler, []⟩,
  ⟨.MARSHAL_TYPE_OLECOLOR, .OleColorMarshaler, [.FEATURE_COMINTEROP]⟩,
  ⟨.MARSHAL_TYPE_RUNTIMETYPEHANDLE, .RuntimeTypeHandleMarshaler, []⟩,
  ⟨.MARSHAL_TYPE_RUNTIMEMETHODHANDLE, .RuntimeMethodHandleMarshaler, []⟩,
  ⟨.MARSHAL_TYPE_RUNTIMEFIELDHANDLE, .RuntimeFieldHandleMarshaler, []⟩,
  ⟨.MARSHAL_TYPE_FIXED_ARRAY, .FixedArrayMarshaler, []⟩,
  ⟨.MARSHAL_TYPE_FIXED_WSTR, .FixedWSTRMarshaler, []⟩,
  ⟨.MARSHAL_TYPE_FIXED_CSTR, .FixedCSTRMarshaler, []⟩,
  ⟨.MARSHAL_TYPE_BLITTABLE_LAYOUTCLASS, .BlittableLayoutClassMarshaler, []⟩,
  ⟨.MARSHAL_TYPE_LAYOUTCLASS, .LayoutClassMarshaler, []⟩,
  ⟨.MARSHAL_TYPE_POINTER, .PointerMarshaler, []⟩]

/-- Modelled from the spec: the FeatureGate component (spec 4.3), a pure
predicate deciding whether all of an entry's required features hold under the
configuration.  It mirrors the C preprocessor: a row survives exactly when every
enclosing guard evaluates true. -/
def featureGate (c : Config) (e : TagEntry) : Bool :=
  e.requiredFeatures.all c.enabled

/-- Modelled from the spec: the active entry set of a build (spec 2 data flow),
TagSpace filtered through FeatureGate in declaration order; rows whose guard
fails are fully absent, exactly as preprocessor exclusion leaves no trace of an
`#ifdef`-ed-out row. -/
def activeEntries (c : Config) : List TagEntry :=
  tagSpace.filter (featureGate c)

/-- The implicit enum ordinal a tag receives in a given build: the position of
its row among the rows that survive conditional compilation, which is the value
the generated `MarshalType` enum assigns when `mtypes.h` is expanded (spec 9
notes the source uses implicit numeric identifiers tied to declaration order).
`none` when the tag's row is excluded from the build. -/
def enumOrdinal (c : Config) (t : MarshalType) : Option Nat :=
  (activeEntries c).findIdx? (fun e => e.tag == t)

/-- Modelled from the spec: the dispatch error taxonomy (spec 7) — a tag value
outside the declared space versus a declared tag excluded from this build. -/
inductive DispatchError where
  | UnsupportedMarshalKind
  | FeatureNotSupported
deriving DecidableEq

instance {ε α : Type} [DecidableEq ε] [DecidableEq α] : DecidableEq (Except ε α) := fun x y =>
  match x, y with
  | .ok a, .ok b => if h : a = b then .isTrue (by rw [h]) else .isFalse (by simp [h])
  | .error a, .error b => if h : a = b then .isTrue (by rw [h]) else .isFalse (by simp [h])
  | .ok _, .error _ => .isFalse (by simp)
  | .error _, .ok _ => .isFalse (by simp)

/-- Modelled from the spec: the explicit, configuration-independent numeric
value of a declared TagId (spec 9: tag assignment explicit and independent of
conditional inclusion) — the tag's declaration position in the full table. -/
def tagIdValue (t : MarshalType) : Int :=
  (tagSpace.findIdx (fun e => e.tag == t) : Int)

/-- Modelled from the spec: recovery of a declared TagId from a raw numeric tag
value reaching dispatch; values outside the declared space (negative, or past
the last declared tag) decode to nothing. -/
def decodeTag (i : Int) : Option MarshalType :=
  if i < 0 then none
  else (tagSpace.map TagEntry.tag)[i.toNat]?

/-- Modelled from the spec: the MarshalerRegistry lookup (spec 4.4) — the
registry is the frozen, filtered view of TagSpace for the configuration, and
lookup finds the unique active entry bound to a tag, if any. -/
def registryLookup (c : Config) (t : MarshalType) : Option TagEntry :=
  (activeEntries c).find? (fun e => e.tag == t)

/-- Modelled from the spec: `Dispatcher.resolve` (spec 4.5), the runtime-facing
lookup.  A raw value outside the declared TagId space fails with
`UnsupportedMarshalKind`; a declared tag whose entry is excluded from this
build fails with `FeatureNotSupported`; an active tag resolves to the bound
converter held by the frozen registry. -/
def resolve (c : Config) (i : Int) : Except DispatchError MarshalerClass :=
  match decodeTag i with
  | none => .error .UnsupportedMarshalKind
  | some t =>
    match registryLookup c t with
    | some e => .ok e.converterBinding
    | none => .error .FeatureNotSupported

/-- The build configuration with both flags enabled (Windows with COM interop). -/
def cfgAll : Config := ⟨true, true⟩

/-- The build configuration with neither flag enabled. -/
def cfgNone : Config := ⟨false, false⟩

/-- A Windows build without COM interop support. -/
def cfgNoCom : Config := ⟨false, true⟩

/-- The table row bound to `MARSHAL_TYPE_GENERIC_4`. -/
def generic4Entry : TagEntry := ⟨.MARSHAL_TYPE_GENERIC_4, .CopyMarshaler4, []⟩

/-- The table row bound to `MARSHAL_TYPE_INTERFACE`. -/
def interfaceEntry : TagEntry := ⟨.MARSHAL_TYPE_INTERFACE, .InterfaceMarshaler, [.FEATURE_COMINTEROP]⟩

/-- The table row bound to `MARSHAL_TYPE_VTBOOL`. -/
def vtBoolEntry : TagEntry := ⟨.MARSHAL_TYPE_VTBOOL, .VtBoolMarshaler, [.FEATURE_COMINTEROP]⟩

/-- The table row bound to `MARSHAL_TYPE_ANSICHAR`. -/
def ansiCharEntry : TagEntry := ⟨.MARSHAL_TYPE_ANSICHAR, .AnsiCharMarshaler, []⟩

/-- The converter categories named by the spec's declaration-order sentence
(spec 4.1), in the claimed order. -/
inductive SpecCategory where
  | copyGeneric
  | primitiveNumeric
  | stringConverter
  | aggregateArray
  | handleLifetime
  | platformSpecific
deriving DecidableEq

/-- Position of a category in the spec's claimed declaration order. -/
def categoryRank : SpecCategory → Nat
  | .copyGeneric => 0
  | .primitiveNumeric => 1
  | .stringConverter => 2
  | .aggregateArray => 3
  | .handleLifetime => 4
  | .platformSpecific => 5

/-- Category of each tag, following the spec's words: the `GENERIC_*` copy
converters are general-purpose copy converters; booleans, chars, floats and
numeric/scalar types are primitive/numeric; the `*STR`/`BSTR`/string-buffer
converters are string converters; arrays, value classes and layout classes are
aggregate/array converters; the `*HANDLE*`/`HANDLEREF` converters are
handle/lifetime converters; the COM-object converters are platform-specific.
Tags whose category the spec does not make evident (as-any, delegate, custom
marshaler, arg iterator, raw pointer) are left unclassified. -/
def specCategory : MarshalType → Option SpecCategory
  | .MARSHAL_TYPE_GENERIC_1 => some .copyGeneric
  | .MARSHAL_TYPE_GENERIC_U1 => some .copyGeneric
  | .MARSHAL_TYPE_GENERIC_2 => some .copyGeneric
  | .MARSHAL_TYPE_GENERIC_U2 => some .copyGeneric
  | .MARSHAL_TYPE_GENERIC_4 => some .copyGeneric
  | .MARSHAL_TYPE_GENERIC_U4 => some .copyGeneric
  | .MARSHAL_TYPE_GENERIC_8 => some .copyGeneric
  | .MARSHAL_TYPE_WINBOOL => some .primitiveNumeric
  | .MARSHAL_TYPE_CBOOL => some .primitiveNumeric
  | .MARSHAL_TYPE_VTBOOL => some .primitiveNumeric
  | .MARSHAL_TYPE_ANSICHAR => some .primitiveNumeric
  | .MARSHAL_TYPE_FLOAT => some .primitiveNumeric
  | .MARSHAL_TYPE_DOUBLE => some .primitiveNumeric
  | .MARSHAL_TYPE_CURRENCY => some .primitiveNumeric
  | .MARSHAL_TYPE_DECIMAL => some .primitiveNumeric
  | .MARSHAL_TYPE_DECIMAL_PTR => some .primitiveNumeric
  | .MARSHAL_TYPE_GUID => some .primitiveNumeric
  | .MARSHAL_TYPE_GUID_PTR => some .primitiveNumeric
  | .MARSHAL_TYPE_DATE => some .primitiveNumeric
  | .MARSHAL_TYPE_LPWSTR => some .stringConverter
  | .MARSHAL_TYPE_LPSTR => some .stringConverter
  | .MARSHAL_TYPE_LPUTF8STR => some .stringConverter
  | .MARSHAL_TYPE_BSTR => some .stringConverter
  | .MARSHAL_TYPE_ANSIBSTR => some .stringConverter
  | .MARSHAL_TYPE_LPWSTR_BUFFER => some .stringConverter
  | .MARSHAL_TYPE_LPSTR_BUFFER => some .stringConverter
  | .MARSHAL_TYPE_UTF8_BUFFER => some .stringConverter
  | .MARSHAL_TYPE_INTERFACE => some .platformSpecific
  | .MARSHAL_TYPE_SAFEARRAY => some .aggregateArray
  | .MARSHAL_TYPE_NATIVEARRAY => some .aggregateArray
  | .MARSHAL_TYPE_ASANYA => none
  | .MARSHAL_TYPE_ASANYW => none
  | .MARSHAL_TYPE_DELEGATE => none
  | .MARSHAL_TYPE_BLITTABLEPTR => some .aggregateArray
  | .MARSHAL_TYPE_VBBYVALSTR => some .stringConverter
  | .MARSHAL_TYPE_VBBYVALSTRW => some .stringConverter
  | .MARSHAL_TYPE_LAYOUTCLASSPTR => some .aggregateArray
  | .MARSHAL_TYPE_ARRAYWITHOFFSET => some .aggregateArray
  | .MARSHAL_TYPE_BLITTABLEVALUECLASS => some .aggregateArray
  | .MARSHAL_TYPE_VALUECLASS => some .aggregateArray
  | .MARSHAL_TYPE_REFERENCECUSTOMMARSHALER => none
  | .MARSHAL_TYPE_ARGITERATOR => none
  | .MARSHAL_TYPE_BLITTABLEVALUECLASSWITHCOPYCTOR => some .aggregateArray
  | .MARSHAL_TYPE_OBJECT => some .platformSpecific
  | .MARSHAL_TYPE_HANDLEREF => some .handleLifetime
  | .MARSHAL_TYPE_SAFEHANDLE => some .handleLifetime
  | .MARSHAL_TYPE_CRITICALHANDLE => some .handleLifetime
  | .MARSHAL_TYPE_OLECOLOR => some .platformSpecific
  | .MARSHAL_TYPE_RUNTIMETYPEHANDLE => some .handleLifetime
  | .MARSHAL_TYPE_RUNTIMEMETHODHANDLE => some .handleLifetime
  | .MARSHAL_TYPE_RUNTIMEFIELDHANDLE => some .handleLifetime
  | .MARSHAL_TYPE_FIXED_ARRAY => some .aggregateArray
  | .MARSHAL_TYPE_FIXED_WSTR => some .stringConverter
  | .MARSHAL_TYPE_FIXED_CSTR => some .stringConverter
  | .MARSHAL_TYPE_BLITTABLE_LAYOUTCLASS => some .aggregateArray
  | .MARSHAL_TYPE_LAYOUTCLASS => some .aggregateArray
  | .MARSHAL_TYPE_POINTER => none

/-- The claim's ordering requirement on a pair of rows declared in this order:
when both rows are categorized, the earlier row's category rank must not exceed
the later row's. -/
def respectsCategoryOrder (e1 e2 : TagEntry) : Bool :=
  match specCategory e1.tag, specCategory e2.tag with
  | some c1, some c2 => decide (categoryRank c1 ≤ categoryRank c2)
  | _, _ => true

/-- The amended ordering requirement: only the copy-generic and
primitive/numeric blocks are required to precede later categories; the
remaining categories may interleave. -/
def respectsAmendedOrder (e1 e2 : TagEntry) : Bool :=
  match specCategory e1.tag, specCategory e2.tag with
  | some c1, some c2 =>
    if categoryRank c1 ≤ 1 ∨ categoryRank c2 ≤ 1 then
      decide (categoryRank c1 ≤ categoryRank c2)
    else true
  | _, _ => true

/-- Whether every ordered pair of rows of the list satisfies the relation. -/
def pairwiseOrdered (r : TagEntry → TagEntry → Bool) : List TagEntry → Bool
  | [] => true
  | e :: rest => (rest.all (r e)) && pairwiseOrdered r rest

/-- No two rows of the table declare the same tag. -/
theorem tagSpace_map_tag_nodup : (tagSpace.map TagEntry.tag).Nodup := by decide

/-- A configuration enabling at least the flags of another satisfies every
feature gate the other satisfies. -/
theorem featureGate_mono {c1 c2 : Config}
    (h : ∀ f, c1.enabled f = true → c2.enabled f = true) (e : TagEntry) :
    featureGate c1 e = true → featureGate c2 e = true := by
  simp only [featureGate, List.all_eq_true]
  intro hall f hf
  exact h f (hall f hf)

/-- C1: every TagId active in a build configuration resolves to its bound
converter (a successful, non-null result), and in particular the tag
`MARSHAL_TYPE_GENERIC_4` — which carries no feature guard — resolves to
`CopyMarshaler4` in every configuration. -/
theorem resolve_active_ok (c : Config) :
    (∀ e ∈ activeEntries c, resolve c (tagIdValue e.tag) = .ok e.converterBinding) ∧
    resolve c (tagIdValue .MARSHAL_TYPE_GENERIC_4) = .ok .CopyMarshaler4 := by
  rcases c with ⟨b1, b2⟩
  cases b1 <;> cases b2 <;> exact ⟨by decide, by decide⟩

/-- Witness for C1: the generic 4-byte copy entry is active even in the
flagless configuration and resolves to its converter. -/
theorem resolve_active_ok_witness :
    generic4Entry ∈ activeEntries cfgNone ∧
    resolve cfgNone (tagIdValue generic4Entry.tag) = .ok generic4Entry.converterBinding :=
  ⟨by decide, (resolve_active_ok cfgNone).1 generic4Entry (by decide)⟩

/-- C2 counterexample: `MARSHAL_TYPE_ANSICHAR` is active both in the full
configuration and in the Windows-without-COM configuration, yet its implicit
enum ordinal is 10 in the former and 9 in the latter — excluding the guarded
`MARSHAL_TYPE_VTBOOL` row shifts the numeric identity of later tags. -/
theorem enumOrdinal_shifts_across_configs :
    ansiCharEntry ∈ activeEntries cfgAll ∧
    ansiCharEntry ∈ activeEntries cfgNoCom ∧
    enumOrdinal cfgAll .MARSHAL_TYPE_ANSICHAR = some 10 ∧
    enumOrdinal cfgNoCom .MARSHAL_TYPE_ANSICHAR = some 9 ∧
    enumOrdinal cfgAll .MARSHAL_TYPE_ANSICHAR ≠ enumOrdinal cfgNoCom .MARSHAL_TYPE_ANSICHAR := by
  refine ⟨by decide, by decide, by decide, by decide, by decide⟩

/-- C2 amended: a tag entry shared by two configurations is the identical table
row in both — the same tag name, the same converter binding, the same guard —
even though its implicit enum ordinal may differ between the builds. -/
theorem shared_entry_identical_across_configs (c1 c2 : Config) (e1 e2 : TagEntry)
    (h1 : e1 ∈ activeEntries c1) (h2 : e2 ∈ activeEntries c2)
    (ht : e1.tag = e2.tag) : e1 = e2 :=
  List.inj_on_of_nodup_map tagSpace_map_tag_nodup
    (List.mem_of_mem_filter h1) (List.mem_of_mem_filter h2) ht

/-- Witness for the amended C2: the `MARSHAL_TYPE_ANSICHAR` rows of the full
build and the Windows-without-COM build coincide. -/
theorem shared_entry_identical_across_configs_witness :
    ansiCharEntry ∈ activeEntries cfgAll ∧ ansiCharEntry ∈ activeEntries cfgNoCom ∧
    ansiCharEntry = ansiCharEntry :=
  ⟨by decide, by decide,
    shared_entry_identical_across_configs cfgAll cfgNoCom ansiCharEntry ansiCharEntry
      (by decide) (by decide) rfl⟩

/-- C3: a declared tag whose feature gate fails in the configuration resolves
to the error `FeatureNotSupported` (and to nothing else — `resolve` is a total
function, so no input makes it crash); in particular, in any build without
COM interop support, the tag bound to `InterfaceMarshaler` fails that way. -/
theorem resolve_inactive_featureNotSupported (c : Config) :
    (∀ e ∈ tagSpace, featureGate c e = false →
      resolve c (tagIdValue e.tag) = .error .FeatureNotSupported) ∧
    (c.featureComInterop = false →
      resolve c (tagIdValue .MARSHAL_TYPE_INTERFACE) = .error .FeatureNotSupported) := by
  rcases c with ⟨b1, b2⟩
  cases b1 <;> cases b2 <;> exact ⟨by decide, by decide⟩

/-- Witness for C3: the interface-pointer row is declared, its gate fails in
the Windows-without-COM build, and resolution fails with `FeatureNotSupported`. -/
theorem resolve_inactive_featureNotSupported_witness :
    interfaceEntry ∈ tagSpace ∧ featureGate cfgNoCom interfaceEntry = false ∧
    resolve cfgNoCom (tagIdValue interfaceEntry.tag) = .error .FeatureNotSupported :=
  ⟨by decide, by decide,
    (resolve_inactive_featureNotSupported cfgNoCom).1 interfaceEntry (by decide) (by decide)⟩

/-- C4: a raw tag value outside the declared TagId space resolves to the error
`UnsupportedMarshalKind` in every configuration; in particular the value `-1`
and the first past-the-end ordinal 57 do. -/
theorem resolve_undeclared_unsupportedMarshalKind :
    (∀ (c : Config) (i : Int), decodeTag i = none →
      resolve c i = .error .UnsupportedMarshalKind) ∧
    (∀ c : Config, resolve c (-1) = .error .UnsupportedMarshalKind) ∧
    (∀ c : Config, resolve c 57 = .error .UnsupportedMarshalKind) := by
  have key : ∀ (c : Config) (i : Int), decodeTag i = none →
      resolve c i = .error .UnsupportedMarshalKind := by
    intro c i h
    simp [resolve, h]
  refine ⟨key, fun c => key c (-1) (by decide), fun c => key c 57 (by decide)⟩

/-- Witness for C4: `-1` decodes to no declared tag and resolution on it fails
with `UnsupportedMarshalKind`. -/
theorem resolve_undeclared_unsupportedMarshalKind_witness :
    decodeTag (-1) = none ∧ resolve cfgAll (-1) = .error .UnsupportedMarshalKind :=
  ⟨by decide, resolve_undeclared_unsupportedMarshalKind.1 cfgAll (-1) (by decide)⟩

/-- C5: every tag is declared exactly once — any two distinct rows of the table
carry different tags. -/
theorem tagSpace_no_duplicate_tags :
    List.Pairwise (fun e1 e2 : TagEntry => e1.tag ≠ e2.tag) tagSpace := by
  decide

/-- C6: a row whose feature gate fails in a configuration is entirely absent
from that build — it is not among the active entries, the generated enum
assigns it no ordinal (no placeholder slot), and the registry holds no binding
for its tag. -/
theorem excluded_entry_fully_absent (c : Config) :
    ∀ e ∈ tagSpace, featureGate c e = false →
      e ∉ activeEntries c ∧ enumOrdinal c e.tag = none ∧ registryLookup c e.tag = none := by
  rcases c with ⟨b1, b2⟩
  cases b1 <;> cases b2 <;> decide

/-- Witness for C6: the `MARSHAL_TYPE_VTBOOL` row in the flagless build. -/
theorem excluded_entry_fully_absent_witness :
    vtBoolEntry ∈ tagSpace ∧ featureGate cfgNone vtBoolEntry = false ∧
    (vtBoolEntry ∉ activeEntries cfgNone ∧
      enumOrdinal cfgNone vtBoolEntry.tag = none ∧
      registryLookup cfgNone vtBoolEntry.tag = none) :=
  ⟨by decide, by decide,
    excluded_entry_fully_absent cfgNone vtBoolEntry (by decide) (by decide)⟩

/-- C7: identity stability of dispatch — any call whose raw value decodes to an
active tag returns exactly the converter instance the frozen registry stores
for that tag, so any two calls with the same tag return results that compare
equal. -/
theorem resolve_identity_stable (c : Config) (i j : Int) (t : MarshalType)
    (e : TagEntry) (hi : decodeTag i = some t) (hj : decodeTag j = some t)
    (he : registryLookup c t = some e) :
    resolve c i = .ok e.converterBinding ∧ resolve c i = resolve c j := by
  constructor
  · simp [resolve, hi, he]
  · simp [resolve, hi, hj]

/-- Witness for C7: two resolutions of the raw tag value 4 (the generic 4-byte
copy tag) in the full configuration. -/
theorem resolve_identity_stable_witness :
    decodeTag 4 = some .MARSHAL_TYPE_GENERIC_4 ∧
    registryLookup cfgAll .MARSHAL_TYPE_GENERIC_4 = some generic4Entry ∧
    (resolve cfgAll 4 = .ok generic4Entry.converterBinding ∧
      resolve cfgAll 4 = resolve cfgAll 4) :=
  ⟨by decide, by decide,
    resolve_identity_stable cfgAll 4 4 .MARSHAL_TYPE_GENERIC_4 generic4Entry
      (by decide) (by decide) (by decide)⟩

/-- C10: enlarging the enabled flag set only inserts rows — the active entry
list of the smaller configuration is an order-preserving subsequence of the
larger one's, and (the entries being whole table rows) every shared entry keeps
the same tag-to-converter binding in both builds. -/
theorem activeEntries_monotone (c1 c2 : Config)
    (h : ∀ f, c1.enabled f = true → c2.enabled f = true) :
    (activeEntries c1).Sublist (activeEntries c2) ∧
    ∀ e ∈ activeEntries c1, e ∈ activeEntries c2 := by
  have hs : (activeEntries c1).Sublist (activeEntries c2) :=
    List.monotone_filter_right tagSpace (fun e => featureGate_mono h e)
  exact ⟨hs, fun e he => hs.subset he⟩

/-- C8 counterexample: the declared order does not respect the claimed category
order — the handle/lifetime row `MARSHAL_TYPE_SAFEHANDLE` (position 45) is
declared before the string row `MARSHAL_TYPE_FIXED_CSTR` (position 53), though
string converters rank before handle/lifetime converters in the claimed list. -/
theorem category_order_violated :
    tagSpace.findIdx (fun e => e.tag == .MARSHAL_TYPE_SAFEHANDLE) = 45 ∧
    tagSpace.findIdx (fun e => e.tag == .MARSHAL_TYPE_FIXED_CSTR) = 53 ∧
    specCategory .MARSHAL_TYPE_SAFEHANDLE = some .handleLifetime ∧
    specCategory .MARSHAL_TYPE_FIXED_CSTR = some .stringConverter ∧
    categoryRank .stringConverter < categoryRank .handleLifetime ∧
    pairwiseOrdered respectsCategoryOrder tagSpace = false := by
  refine ⟨by decide, by decide, by decide, by decide, by decide, by decide⟩

/-- C8 amended: the copy-generic rows are declared before every other
categorized row, and the primitive/numeric rows before every string,
aggregate/array, handle/lifetime and platform-specific row; the later
categories interleave in declaration order. -/
theorem category_order_amended :
    pairwiseOrdered respectsAmendedOrder tagSpace = true := by
  decide

/-- Witness for C10: the flagless build's active list is a subsequence of the
full build's. -/
theorem activeEntries_monotone_witness :
    (∀ f, cfgNone.enabled f = true → cfgAll.enabled f = true) ∧
    (activeEntries cfgNone).Sublist (activeEntries cfgAll) :=
  ⟨by intro f h; cases f <;> rfl,
    (activeEntries_monotone cfgNone cfgAll (by intro f h; cases f <;> rfl)).1⟩

/-- C9: every row carries at most one required feature flag; the rows guarded
by `FEATURE_COMINTEROP` are exactly the seven COM-related ones, the only row
guarded by `TARGET_WINDOWS` is the copy-constructor value-class one, the other
49 rows are unconditional, and every unconditional row is active in every
configuration. -/
theorem feature_guard_inventory :
    (tagSpace.all (fun e => decide (e.requiredFeatures.length <= 1)) = true) ∧
    ((tagSpace.filter (fun e => e.requiredFeatures.contains .FEATURE_COMINTEROP)).map
        TagEntry.tag =
      [.MARSHAL_TYPE_VTBOOL, .MARSHAL_TYPE_INTERFACE, .MARSHAL_TYPE_SAFEARRAY,
       .MARSHAL_TYPE_VBBYVALSTR, .MARSHAL_TYPE_VBBYVALSTRW, .MARSHAL_TYPE_OBJECT,
       .MARSHAL_TYPE_OLECOLOR]) ∧
    ((tagSpace.filter (fun e => e.requiredFeatures.contains .TARGET_WINDOWS)).map
        TagEntry.tag =
      [.MARSHAL_TYPE_BLITTABLEVALUECLASSWITHCOPYCTOR]) ∧
    ((tagSpace.filter (fun e => e.requiredFeatures.isEmpty)).length = 49) ∧
    (∀ c : Config, ∀ e ∈ tagSpace, e.requiredFeatures.isEmpty = true →
      e ∈ activeEntries c) := by
  refine ⟨by decide, by decide, by decide, by decide, ?_⟩
  intro c
  rcases c with ⟨b1, b2⟩
  cases b1 <;> cases b2 <;> decide

/-- Witness for C9: the unconditional generic 4-byte row is active in the
flagless build. -/
theorem feature_guard_inventory_witness :
    generic4Entry ∈ tagSpace ∧ generic4Entry.requiredFeatures.isEmpty = true ∧
    generic4Entry ∈ activeEntries cfgNone :=
  ⟨by decide, by decide,
    feature_guard_inventory.2.2.2.2 cfgNone generic4Entry (by decide) (by decide)⟩

end MTypes
